import Mathlib

set_option autoImplicit false

/- Shallow embedding of src/lib/forecastlib/models.py (classes Geo_model, Predictor,
   Ens_predictor).  Numeric array cells are either a missing value marker (NaN) or a
   number; the concrete numeric formulas of the external transform and model provider
   modules are out of scope and appear as opaque function parameters or as definitions
   marked as modelled from the spec. -/

inductive Val where
  | nan : Val
  | num : Int → Val
deriving DecidableEq, Repr

/- Python exception kinds raised on the modelled code paths.  nonTermination marks the
   one place where the source loops forever (models.py lines 388 to 392 when the first
   dict key is the ar key); it is not a Python exception. -/
inductive PyErr where
  | nameError
  | valueError
  | typeError
  | indexError
  | keyError
  | assertionError
  | domainError
  | nonTermination
deriving DecidableEq, Repr

/- Error notices printed by the modelled code paths.  Verbose progress chatter is not
   modelled; only the error reports that the claims mention are. -/
inductive Notice where
  | targetTransformError
  | athTransformError
  | gtTransformError
  | arCreateError
  | labelFallback
deriving DecidableEq, Repr

abbrev Mat := List (List Val)

/- The input mapping (Geo_model.inputs, Predictor.X) is modelled as an insertion
   ordered association list.  Python 2 dict iteration order is implementation defined;
   none of the settled claims depends on that order, and a fresh key assignment appends
   here exactly as the ar block is added after the loaded sources. -/
abbrev Dict := List (String × Mat)

def dictFind (d : Dict) (k : String) : Option Mat :=
  (d.find? (fun kv => kv.1 == k)).map (fun kv => kv.2)

def dictHas (d : Dict) (k : String) : Bool :=
  d.any (fun kv => kv.1 == k)

def dictSet (d : Dict) (k : String) (v : Mat) : Dict :=
  if dictHas d k then d.map (fun kv => if kv.1 == k then (k, v) else kv)
  else d ++ [(k, v)]

def dictKeys (d : Dict) : List String := d.map (fun kv => kv.1)

/- The store holds the mutable dict objects; a reference is an index into it.  Arrays
   and date lists are kept by value: the source never writes an array element in place
   (it only rebinds attributes or dict entries), so value semantics for them is
   observationally faithful, while a dict entry assignment is a genuine in place
   mutation of a shared object and is therefore routed through the store. -/
abbrev Store := List Dict

def dictAt (s : Store) (r : Nat) : Dict := s.getD r []

def storeSet (s : Store) (r : Nat) (d : Dict) : Store := s.set r d

/- Python slice a[i:] for an integer i, including the negative index convention. -/
def pyDropFrom {α : Type} (i : Int) (l : List α) : List α :=
  if 0 ≤ i then l.drop i.toNat else l.drop ((l.length : Int) + i).toNat

/- Python slice a[:-n] for a positive n: drop the last n entries, empty when n is at
   least the length. -/
def dropLastN {α : Type} (n : Nat) (l : List α) : List α := l.take (l.length - n)

/- list.index(x): position of the first occurrence, ValueError when absent
   (models.py lines 291 and 442). -/
def listIndex : List Nat → Nat → Except PyErr Nat
  | [], _ => .error .valueError
  | d :: rest, x =>
    if d = x then .ok 0
    else
      match listIndex rest x with
      | .ok i => .ok (i + 1)
      | .error e => .error e

/- np.hstack over a list of 2-D blocks (models.py lines 428 and 430): fails on an
   empty list or mismatched row counts, otherwise concatenates the blocks row by row. -/
def hstackRows (ms : List Mat) : Except PyErr Mat :=
  match ms with
  | [] => .error .valueError
  | m :: rest =>
    if rest.all (fun m2 => m2.length == m.length) then
      .ok ((List.range m.length).map (fun i => (ms.map (fun mm => mm.getD i [])).flatten))
    else .error .valueError

/- np.hstack over a list of column vectors (models.py line 240). -/
def hstackCols (cols : List (List Val)) : Except PyErr Mat :=
  match cols with
  | [] => .error .valueError
  | c :: rest =>
    if rest.all (fun c2 => c2.length == c.length) then
      .ok ((List.range c.length).map (fun i => cols.map (fun col => col.getD i Val.nan)))
    else .error .valueError

/- The AR_terms argument of Predictor.data_process is dynamically typed in the source:
   None, an int, a string (the accidental default value "None", line 334), or a list of
   lag integers. -/
inductive ARTerms where
  | pynone
  | int : Int → ARTerms
  | str : String → ARTerms
  | list : List Int → ARTerms
deriving DecidableEq, Repr

/- Python truthiness of an AR_terms value (the test at line 375). -/
def arTruthy : ARTerms → Bool
  | .pynone => false
  | .int n => n != 0
  | .str s => s != ""
  | .list l => !l.isEmpty

/- Result of the expression at line 377: an int stays an int, max over a string yields
   a character, max over a list of ints yields an int. -/
inductive SliceVal where
  | int : Int → SliceVal
  | char : Char → SliceVal
deriving DecidableEq, Repr

def charListMax : List Char → Option Char
  | [] => none
  | c :: rest => some (rest.foldl (fun a b => if a < b then b else a) c)

def intListMax : List Int → Option Int
  | [] => none
  | c :: rest => some (rest.foldl (fun a b => if a < b then b else a) c)

/- discard = AR_terms if isinstance(AR_terms, (int, long)) else max(AR_terms)
   (line 377).  max of an empty sequence raises ValueError and max(None) raises
   TypeError; both are unreachable behind the truthiness test. -/
def computeDiscard : ARTerms → Except PyErr SliceVal
  | .int n => .ok (.int n)
  | .str s =>
    match charListMax s.toList with
    | some c => .ok (.char c)
    | none => .error .valueError
  | .list l =>
    match intListMax l with
    | some m => .ok (.int m)
    | none => .error .valueError
  | .pynone => .error .typeError

/- a[discard:1] where discard may be a character: slicing with a non integer raises
   TypeError (lines 379, 380, 399, 400 when AR_terms is a string). -/
def pySliceFrom {α : Type} (v : SliceVal) (l : List α) : Except PyErr (List α) :=
  match v with
  | .int i => .ok (pyDropFrom i l)
  | .char _ => .error .typeError

/- The per key loop at lines 378 and 379.  With a character discard the first slice
   raises before any assignment; with an empty dict the loop body never runs. -/
def sliceDictVals (d : Dict) (v : SliceVal) : Except PyErr Dict :=
  match v with
  | .int i => .ok (d.map (fun kv => (kv.1, pyDropFrom i kv.2)))
  | .char _ => if d.isEmpty then .ok d else .error .typeError

/- Predictor (models.py lines 314 to 491).  X is a reference to the dict object that
   holds the input sources; dates are abstract day numbers. -/
structure Predictor where
  X : Nat
  target : List Val
  target_reserve : List Val
  label : String
  start_date : Nat
  datelist : List Nat
  resolution : String
  transform_target : Bool
  predictions : Option (List Val)
deriving DecidableEq, Repr

/- The Geo_model fields that init_predictor reads (lines 95 to 105).  The unit list
   itself is not needed for the isolation claim and is omitted here; the exported and
   ensembled views of the unit list are modelled separately below. -/
structure GeoState where
  inputs : Nat
  target : List Val
  datelist : List Nat
  pred_start_date : Nat
  resolution : String
deriving DecidableEq, Repr

/- Geo_model.init_predictor (lines 175 to 177) plus Predictor.init (lines 318 to 329):
   copy.deepcopy(self.inputs) allocates a fresh dict cell with equal contents,
   np.copy(self.target) and copy.copy(self.datelist) give independent arrays and a
   fresh list (kept by value here, see the Store comment), and the new unit starts with
   transform_target false and predictions None. -/
def initPredictor (g : GeoState) (label : String) (s : Store) : Predictor × Store :=
  ({ X := s.length
     target := g.target
     target_reserve := g.target
     label := label
     start_date := g.pred_start_date
     datelist := g.datelist
     resolution := g.resolution
     transform_target := false
     predictions := none }, s ++ [dictAt s g.inputs])

/- data_process step 1 (lines 349 to 357): transform the target, or on failure report
   and leave the flag false. -/
def dpTargetStep (logitV : List Val → Except PyErr (List Val)) (tt : Bool)
    (u : Predictor) : Predictor × List Notice :=
  if tt then
    match logitV u.target with
    | .ok t2 => ({ u with target := t2, transform_target := true }, [])
    | .error _ => ({ u with transform_target := false }, [Notice.targetTransformError])
  else (u, [])

/- data_process step 2 (lines 359 to 365): transform the ath source in place in the
   dict, or on failure report and continue. -/
def dpAthStep (logitM : Mat → Except PyErr Mat) (ta : Bool)
    (u : Predictor) (s : Store) : Store × List Notice :=
  let d := dictAt s u.X
  if ta && dictHas d "ath" then
    match dictFind d "ath" with
    | some m =>
      match logitM m with
      | .ok m2 => (storeSet s u.X (dictSet d "ath" m2), [])
      | .error _ => (s, [Notice.athTransformError])
    | none => (s, [])
  else (s, [])

/- data_process step 3 (lines 367 to 373): same for the gt source. -/
def dpGtStep (gtlogM : Mat → Except PyErr Mat) (tg : Bool)
    (u : Predictor) (s : Store) : Store × List Notice :=
  let d := dictAt s u.X
  if tg && dictHas d "gt" then
    match dictFind d "gt" with
    | some m =>
      match gtlogM m with
      | .ok m2 => (storeSet s u.X (dictSet d "gt" m2), [])
      | .error _ => (s, [Notice.gtTransformError])
    | none => (s, [])
  else (s, [])

/- Lines 399 and 400, run after the try block whether or not AR creation succeeded:
   discard the first discard entries of target and target_reserve. -/
def dpArFinish (u : Predictor) (s : Store) (log : List Notice) (disc : SliceVal) :
    Except (PyErr × Predictor × Store) (Predictor × Store × List Notice) :=
  match pySliceFrom disc u.target with
  | .error e => .error (e, u, s)
  | .ok t2 =>
    match pySliceFrom disc u.target_reserve with
    | .error e => .error (e, { u with target := t2 }, s)
    | .ok tr2 => .ok ({ u with target := t2, target_reserve := tr2 }, s, log)

/- data_process step 4 (lines 375 to 400): the autoregressive branch.  The while loop
   at lines 388 to 392 re-creates the key list each iteration, so it either truncates
   the ar block against the first key and breaks, or never terminates when the first
   key of a multi key dict is the ar key itself. -/
def dpArStep (arFn : List Val → ARTerms → Except PyErr Mat) (ar : ARTerms)
    (u : Predictor) (s : Store) :
    Except (PyErr × Predictor × Store) (Predictor × Store × List Notice) :=
  if arTruthy ar then
    match computeDiscard ar with
    | .error e => .error (e, u, s)
    | .ok disc =>
      let d := dictAt s u.X
      match sliceDictVals d disc with
      | .error e => .error (e, u, s)
      | .ok d2 =>
        let s2 := if d.isEmpty then s else storeSet s u.X d2
        match pySliceFrom disc u.datelist with
        | .error e => .error (e, u, s2)
        | .ok dl2 =>
          let u2 := { u with datelist := dl2 }
          match arFn u2.target ar with
          | .error _ => dpArFinish u2 s2 [Notice.arCreateError] disc
          | .ok arM =>
            let d3 := dictSet d2 "ar" arM
            match dictKeys d3 with
            | k :: _ :: _ =>
              if k ≠ "ar" then
                let arLen := ((dictFind d3 k).getD []).length
                dpArFinish u2 (storeSet s2 u2.X (dictSet d3 "ar" (arM.take arLen))) [] disc
              else .error (.nonTermination, u2, storeSet s2 u2.X d3)
            | _ => dpArFinish u2 (storeSet s2 u2.X d3) [] disc
  else .ok (u, s, [])

/- Predictor.data_process (lines 334 to 400).  The transform functions logit_percent,
   gtlog and create_ar_stack live in processing_functions.py, which is not part of the
   source under review, and are passed as opaque parameters; per the spec a transform
   fails exactly when its series contains zero or missing values. -/
def dataProcess (logitV : List Val → Except PyErr (List Val))
    (logitM gtlogM : Mat → Except PyErr Mat)
    (arFn : List Val → ARTerms → Except PyErr Mat)
    (tt ta tg : Bool) (ar : ARTerms) (u : Predictor) (s : Store) :
    Except (PyErr × Predictor × Store) (Predictor × Store × List Notice) :=
  let p1 := dpTargetStep logitV tt u
  let p2 := dpAthStep logitM ta p1.1 s
  let p3 := dpGtStep gtlogM tg p1.1 p2.1
  match dpArStep arFn ar p1.1 p3.1 with
  | .error r => .error r
  | .ok (u2, s3, n4) => .ok (u2, s3, p1.2 ++ p2.2 ++ p3.2 ++ n4)

/- The model provider argo_class.ARGO.make_predictions (argo_class.py, not part of the
   source under review): receives the stacked design matrix, the windowed target, the
   transform flag, the method name, horizon, training window width and the in sample
   flag, and returns a raw prediction array. -/
abbrev Provider :=
  Mat → List Val → Bool → String → Nat → Nat → Bool → Except PyErr (List Val)

abbrev MetricsFn := List Val → List Val → Except PyErr Unit

/- Default training window width (lines 433 to 437): 104 for weekly, 24 for monthly
   resolution; any other resolution leaves the string default in place, which then
   raises TypeError at the subtraction on line 443. -/
def resolveTL (train_len : Option Nat) (res : String) : Option Nat :=
  match train_len with
  | some n => some n
  | none => if res = "week" then some 104 else if res = "month" then some 24 else none

/- Lines 427 to 430: stack the chosen sources, where the value all means the fixed
   list ath, gt, ar. -/
def stackInputs (d : Dict) (input_vars : Option (List String)) : Except PyErr Mat :=
  match input_vars with
  | none =>
    match dictFind d "ath", dictFind d "gt", dictFind d "ar" with
    | some a, some g, some r => hstackRows [a, g, r]
    | _, _, _ => .error .keyError
  | some terms =>
    match terms.mapM (fun t =>
        match dictFind d t with
        | some m => Except.ok m
        | none => Except.error PyErr.keyError) with
    | .ok ms => hstackRows ms
    | .error e => .error e

def boolToInt (b : Bool) : Int := if b then 1 else 0

/- Predictor.predict (lines 402 to 491).  The error value carries the unit state at
   raise time; the store is returned unchanged because predict never assigns a dict
   entry.  argo_functions.metrics is called inside a bare try without a body beyond a
   string literal (lines 484 to 487), so the metrics function is received as a
   parameter and its outcome is discarded. -/
def predict (provider : Provider) (invFn : List Val → List Val) (metricsFn : MetricsFn)
    (input_vars : Option (List String)) (method : String) (horizon : Nat)
    (train_len : Option Nat) (in_sample : Bool) (u : Predictor) (s : Store) :
    Except (PyErr × Predictor × Store) (Predictor × Store) :=
  match stackInputs (dictAt s u.X) input_vars with
  | .error e => .error (e, u, s)
  | .ok xstack =>
    let tlOpt := resolveTL train_len u.resolution
    match listIndex u.datelist u.start_date with
    | .error e => .error (e, u, s)
    | .ok shift =>
      match tlOpt with
      | none => .error (.typeError, u, s)
      | some tl =>
        let shift_vars : Int := (shift : Int) - (tl : Int)
        let shift_dates : Int := (shift : Int) - (tl : Int) * boolToInt in_sample
        if shift_vars < 0 then .error (.assertionError, u, s)
        else
          let u1 := { u with
            target := pyDropFrom shift_vars u.target
            target_reserve := pyDropFrom shift_vars u.target_reserve
            datelist := pyDropFrom shift_dates u.datelist }
          match provider (pyDropFrom shift_vars xstack) u1.target u1.transform_target
              method horizon tl in_sample with
          | .error e => .error (e, u1, s)
          | .ok raw =>
            let pr1 := if u1.transform_target then invFn raw else raw
            let u2 := if u1.transform_target then { u1 with target := invFn u1.target } else u1
            let u3 := if in_sample then u2 else { u2 with target := u2.target.drop tl }
            let preds := List.replicate (horizon * 2) Val.nan ++ pr1
            let u4 := { u3 with predictions := some preds }
            let _ := metricsFn (dropLastN (1 + horizon) (preds.drop (2 * horizon)))
              (u4.target.drop (2 * horizon))
            .ok (u4, s)

/- The duck typed shape shared by Predictor and Ens_predictor entries of
   Geo_model.model_list, as read by ensemble and save_predictions. -/
structure UnitRec where
  label : String
  target : List Val
  predictions : Option (List Val)
  datelist : List Nat
deriving DecidableEq, Repr

structure GeoModel where
  pred_start_date : Nat
  model_list : List UnitRec
deriving DecidableEq, Repr

/- Line 237: predictions with the first 2 times horizon entries stripped, for each
   selected member; a member whose predictions are still None raises TypeError. -/
def compatPreds (l : List UnitRec) (horizon : Nat) : Except PyErr (List (List Val)) :=
  l.mapM (fun m =>
    match m.predictions with
    | some p => Except.ok (p.drop (2 * horizon))
    | none => Except.error PyErr.typeError)

abbrev DispatchFn :=
  String → Mat → List Val → Nat → Nat → Bool → Except PyErr (List Val)

/- Geo_model.ensemble (lines 203 to 261) with the two references into the
   argo_functions module received as parameters: dispatchEval stands for
   argo_functions.ensemble_dispatcher[method](...) at line 245 and metricsEval for
   argo_functions.metrics(...) at line 257.  Note the metrics call is not guarded by
   any try, and the new unit is appended only after it. -/
def ensembleBody (dispatchEval : DispatchFn) (metricsEval : MetricsFn)
    (method ens_label : String) (ind_labels : List String)
    (horizon train_len : Nat) (in_sample : Bool) (g : GeoModel) :
    Except (PyErr × GeoModel) GeoModel :=
  let compat := g.model_list.filter (fun m => decide (m.label ∈ ind_labels))
  match compatPreds compat horizon with
  | .error e => .error (e, g)
  | .ok cols =>
    match hstackCols cols with
    | .error e => .error (e, g)
    | .ok mstack =>
      match compat with
      | [] => .error (.indexError, g)
      | first :: _ =>
        match dispatchEval method mstack first.target horizon train_len in_sample with
        | .error e => .error (e, g)
        | .ok raw =>
          let ens_target := if in_sample then first.target else first.target.drop train_len
          let ens_datelist :=
            if in_sample then first.datelist else first.datelist.drop train_len
          let ens_pred := List.replicate (horizon * 2) Val.nan ++ raw
          match metricsEval (dropLastN (1 + horizon) (ens_pred.drop (2 * horizon)))
              (ens_target.drop (2 * horizon)) with
          | .error e => .error (e, g)
          | .ok _ =>
            .ok { g with model_list := g.model_list ++
              [{ label := ens_label, target := ens_target,
                 predictions := some ens_pred, datelist := ens_datelist }] }

/- Geo_model.ensemble as it ships: the file imports loading_functions,
   processing_functions and argo_class (lines 48 to 50) but never argo_functions, so
   evaluating argo_functions.ensemble_dispatcher at line 245, and likewise
   argo_functions.metrics at line 257, raises NameError. -/
def ensemble (method ens_label : String) (ind_labels : List String)
    (horizon train_len : Nat) (in_sample : Bool) (g : GeoModel) :
    Except (PyErr × GeoModel) GeoModel :=
  ensembleBody (fun _ _ _ _ _ _ => .error .nameError) (fun _ _ => .error .nameError)
    method ens_label ind_labels horizon train_len in_sample g

/- The model_labels argument of save_predictions: the string all, a list of labels, or
   a value for which the membership test itself raises TypeError (line 283 falling to
   the except at line 284). -/
inductive Selector where
  | all
  | labels : List String → Selector
  | nonIterable
deriving DecidableEq, Repr

/- Lines 279 to 286: selection of the units to export.  Only a raising membership test
   triggers the fallback to all units with the printed notice; a list of absent labels
   just yields an empty selection. -/
def selectModels (g : GeoModel) (sel : Selector) : List UnitRec × List Notice :=
  match sel with
  | .all => (g.model_list, [])
  | .labels ls => (g.model_list.filter (fun m => decide (m.label ∈ ls)), [])
  | .nonIterable => (g.model_list, [Notice.labelFallback])

/- Lines 291 to 295 for one unit: find the start index in its calendar, then re-slice
   calendar, target and predictions in that order; predictions equal to None raises
   TypeError after the first two fields were already reassigned. -/
def exportUnit (psd : Nat) (m : UnitRec) :
    Except (PyErr × UnitRec) (UnitRec × (String × List Val)) :=
  match listIndex m.datelist psd with
  | .error e => .error (e, m)
  | .ok shift =>
    let m2 := { m with datelist := m.datelist.drop shift, target := m.target.drop shift }
    match m2.predictions with
    | none => .error (.typeError, m2)
    | some p =>
      let m3 := { m2 with predictions := some (p.drop shift) }
      .ok (m3, (m3.label, p.drop shift))

/- The for loop at lines 290 to 295, mutating each selected unit in order; an error
   leaves the already processed prefix mutated. -/
def exportLoop (psd : Nat) :
    List UnitRec → Except (PyErr × List UnitRec) (List UnitRec × List (String × List Val))
  | [] => .ok ([], [])
  | m :: rest =>
    match exportUnit psd m with
    | .error (e, m2) => .error (e, m2 :: rest)
    | .ok (m2, col) =>
      match exportLoop psd rest with
      | .error (e, rest2) => .error (e, m2 :: rest2)
      | .ok (rest2, cols) => .ok (m2 :: rest2, col :: cols)

/- The units in model_list are the same objects as those in the selection s, so their
   mutations are visible through model_list.  mergeUpdated writes the processed
   selection back over the positions that the filter selected. -/
def mergeUpdated (p : UnitRec → Bool) : List UnitRec → List UnitRec → List UnitRec
  | [], _ => []
  | m :: ms, upd =>
    if p m then
      match upd with
      | u2 :: us => u2 :: mergeUpdated p ms us
      | [] => m :: mergeUpdated p ms []
    else m :: mergeUpdated p ms upd

def writeBack (g : GeoModel) (sel : Selector) (l : List UnitRec) : GeoModel :=
  match sel with
  | .labels ls => { g with model_list := mergeUpdated (fun m => decide (m.label ∈ ls)) g.model_list l }
  | _ => { g with model_list := l }

/- The exported table (lines 297 to 308): the date column of the first selected unit,
   optionally shifted to week ending Saturdays, its target column, and one prediction
   column per selected unit. -/
structure ExportTable where
  week : List Nat
  targetCol : List Val
  predCols : List (String × List Val)
deriving DecidableEq, Repr

/- Geo_model.save_predictions (lines 263 to 311).  With an empty selection the loop
   body never runs and line 298 raises IndexError on s[0]. -/
def savePredictions (g : GeoModel) (sel : Selector) (end_saturday : Bool) :
    Except (PyErr × GeoModel) (GeoModel × ExportTable × List Notice) :=
  let sl := selectModels g sel
  match exportLoop g.pred_start_date sl.1 with
  | .error (e, part) => .error (e, writeBack g sel part)
  | .ok (upd, cols) =>
    match upd with
    | [] => .error (.indexError, writeBack g sel upd)
    | first :: _ =>
      let tmp := if end_saturday then first.datelist.map (fun x => x + 6) else first.datelist
      .ok (writeBack g sel upd, { week := tmp, targetCol := first.target, predCols := cols }, sl.2)

/- ------------------------------------------------------------------ -/
/- Helper lemmas about the store and list helpers.                     -/
/- ------------------------------------------------------------------ -/

/- The store of either outcome of a data_process run. -/
def storeOf : Except (PyErr × Predictor × Store) (Predictor × Store × List Notice) → Store
  | .ok r => r.2.1
  | .error r => r.2.2

/- The isolation property of two sibling units created from the same Geo_model: their
   dict cells are fresh and mutually distinct, each starts as a deep copy of the
   orchestrator dict, any data_process run by either unit leaves every other dict cell
   (in particular the sibling cell and the orchestrator cell) unchanged, and predict
   leaves the store entirely unchanged.  The array and calendar fields are held by
   value (np.copy and copy.copy in the source), so their isolation is representational:
   no operation of one unit can even refer to another unit record. -/
def IsolatedPair (g : GeoState) (s : Store) (l1 l2 : String) : Prop :=
  let r1 := initPredictor g l1 s
  let r2 := initPredictor g l2 r1.2
  r1.1.X ≠ r2.1.X ∧ r1.1.X ≠ g.inputs ∧ r2.1.X ≠ g.inputs ∧
  dictAt r2.2 r1.1.X = dictAt s g.inputs ∧
  dictAt r2.2 r2.1.X = dictAt s g.inputs ∧
  (∀ (L : List Val → Except PyErr (List Val)) (M G2 : Mat → Except PyErr Mat)
     (A : List Val → ARTerms → Except PyErr Mat) (tt ta tg : Bool) (ar : ARTerms)
     (r : Nat), r ≠ r2.1.X →
     dictAt (storeOf (dataProcess L M G2 A tt ta tg ar r2.1 r2.2)) r = dictAt r2.2 r) ∧
  (∀ (L : List Val → Except PyErr (List Val)) (M G2 : Mat → Except PyErr Mat)
     (A : List Val → ARTerms → Except PyErr Mat) (tt ta tg : Bool) (ar : ARTerms)
     (r : Nat), r ≠ r1.1.X →
     dictAt (storeOf (dataProcess L M G2 A tt ta tg ar r1.1 r2.2)) r = dictAt r2.2 r) ∧
  (∀ (provider : Provider) (invFn : List Val → List Val) (metricsFn : MetricsFn)
     (iv : Option (List String)) (mth : String) (h : Nat) (tl : Option Nat) (ins : Bool)
     (u2 : Predictor) (s2 : Store),
     predict provider invFn metricsFn iv mth h tl ins r2.1 r2.2 = .ok (u2, s2) →
     s2 = r2.2) ∧
  (∀ (provider : Provider) (invFn : List Val → List Val) (metricsFn : MetricsFn)
     (iv : Option (List String)) (mth : String) (h : Nat) (tl : Option Nat) (ins : Bool)
     (u2 : Predictor) (s2 : Store),
     predict provider invFn metricsFn iv mth h tl ins r1.1 r2.2 = .ok (u2, s2) →
     s2 = r2.2)

theorem storeGetD_set_ne (s : Store) (i r : Nat) (d : Dict) (h : r ≠ i) :
    (s.set i d).getD r [] = s.getD r [] := by
  induction s generalizing i r with
  | nil => rfl
  | cons a t ih =>
    cases i with
    | zero =>
      cases r with
      | zero => exact absurd rfl h
      | succ r2 => rfl
    | succ i2 =>
      cases r with
      | zero => rfl
      | succ r2 =>
        exact ih i2 r2 (by omega)

theorem dictAt_storeSet_ne (s : Store) (i r : Nat) (d : Dict) (h : r ≠ i) :
    dictAt (storeSet s i d) r = dictAt s r :=
  storeGetD_set_ne s i r d h

theorem getD_append_lt (s t : Store) (r : Nat) (h : r < s.length) :
    (s ++ t).getD r [] = s.getD r [] := by
  induction s generalizing r with
  | nil => exact absurd h (by simp)
  | cons a u ih =>
    cases r with
    | zero => rfl
    | succ r2 =>
      exact ih r2 (by simp only [List.length_cons] at h; omega)

theorem getD_append_self (s : Store) (d : Dict) : (s ++ [d]).getD s.length [] = d := by
  induction s with
  | nil => rfl
  | cons a u ih => exact ih

theorem listIndex_ok_lt (l : List Nat) (x i : Nat) (h : listIndex l x = .ok i) :
    i < l.length := by
  induction l generalizing i with
  | nil => exact absurd h (by simp [listIndex])
  | cons d rest ih =>
    unfold listIndex at h
    by_cases hd : d = x
    · rw [if_pos hd] at h
      injection h with h2
      simp [← h2]
    · rw [if_neg hd] at h
      cases hrec : listIndex rest x with
      | ok j =>
        rw [hrec] at h
        injection h with h2
        have hj := ih j hrec
        simp only [List.length_cons]
        omega
      | error e =>
        rw [hrec] at h
        cases h

theorem mergeUpdated_nil (p : UnitRec → Bool) (l : List UnitRec) :
    mergeUpdated p l [] = l := by
  induction l with
  | nil => rfl
  | cons m ms ih => unfold mergeUpdated; by_cases hp : p m <;> simp [hp, ih]

theorem pyDropFrom_coe_sub {α : Type} (a b : Nat) (h : b ≤ a) (l : List α) :
    pyDropFrom ((a : Int) - (b : Int)) l = l.drop (a - b) := by
  unfold pyDropFrom
  rw [if_pos (by omega)]
  congr 1
  omega

/- ------------------------------------------------------------------ -/
/- Claim theorems.                                                     -/
/- ------------------------------------------------------------------ -/

/-- Claim C10: calling data_process with AR_terms left at its default does not skip the
autoregressive branch: the default is the truthy string None, so the branch is entered,
the discard count becomes the maximum character of that string, and the call fails with
TypeError when slicing the input arrays or the calendar, leaving the unit and the store
as they were; by contrast an actual None value skips the branch and the call completes
with everything unchanged. -/
theorem dataProcess_default_ar_terms_raises
    (L : List Val → Except PyErr (List Val)) (M G : Mat → Except PyErr Mat)
    (A : List Val → ARTerms → Except PyErr Mat) (u : Predictor) (s : Store) :
    dataProcess L M G A false false false (.str "None") u s = .error (.typeError, u, s) ∧
    dataProcess L M G A false false false .pynone u s = .ok (u, s, []) := by
  have hdisc : computeDiscard (ARTerms.str "None") = .ok (SliceVal.char 'o') := rfl
  constructor
  · by_cases hd : (dictAt s u.X).isEmpty
    · simp [dataProcess, dpTargetStep, dpAthStep, dpGtStep, dpArStep, arTruthy, hdisc,
        sliceDictVals, pySliceFrom, hd]
    · simp [dataProcess, dpTargetStep, dpAthStep, dpGtStep, dpArStep, arTruthy, hdisc,
        sliceDictVals, pySliceFrom, hd]
  · simp [dataProcess, dpTargetStep, dpAthStep, dpGtStep, dpArStep, arTruthy]

/-- Claim C2: when the calendar contains start_date at position shift and the training
window width tl exceeds shift (so the window would begin before the calendar), predict
fails with the AssertionError raised at line 445 and the unit state it reports is the
untouched input state: target, target_reserve, datelist and predictions are unchanged.
The stacking, default resolution and calendar lookup steps precede the assertion and
are assumed to succeed, as they do not touch the unit state either. -/
theorem predict_insufficient_history_state_unchanged
    (provider : Provider) (invFn : List Val → List Val) (metricsFn : MetricsFn)
    (input_vars : Option (List String)) (method : String) (horizon : Nat)
    (train_len : Option Nat) (in_sample : Bool) (u : Predictor) (s : Store)
    (M : Mat) (shift tl : Nat)
    (hstack : stackInputs (dictAt s u.X) input_vars = .ok M)
    (hidx : listIndex u.datelist u.start_date = .ok shift)
    (htl : resolveTL train_len u.resolution = some tl)
    (hlt : shift < tl) :
    predict provider invFn metricsFn input_vars method horizon train_len in_sample u s
      = .error (.assertionError, u, s) := by
  have hc : (shift : Int) - (tl : Int) < 0 := by omega
  simp [predict, hstack, hidx, htl, hc]

theorem predict_insufficient_history_state_unchanged_witness :
    stackInputs (dictAt [[("gt", [[Val.num 1], [Val.num 2]])]] 0) (some ["gt"])
      = .ok [[Val.num 1], [Val.num 2]] ∧
    listIndex [5, 6] 5 = .ok 0 ∧
    resolveTL (some 104) "week" = some 104 ∧
    0 < 104 ∧
    predict (fun _ _ _ _ _ _ _ => .error .valueError) id (fun _ _ => .ok ())
      (some ["gt"]) "ARGO" 0 (some 104) false
      { X := 0, target := [Val.num 1, Val.num 2],
        target_reserve := [Val.num 1, Val.num 2], label := "A", start_date := 5,
        datelist := [5, 6], resolution := "week", transform_target := false,
        predictions := none }
      [[("gt", [[Val.num 1], [Val.num 2]])]]
      = .error (.assertionError,
        { X := 0, target := [Val.num 1, Val.num 2],
          target_reserve := [Val.num 1, Val.num 2], label := "A", start_date := 5,
          datelist := [5, 6], resolution := "week", transform_target := false,
          predictions := none },
        [[("gt", [[Val.num 1], [Val.num 2]])]]) :=
  ⟨rfl, rfl, rfl, by omega,
    predict_insufficient_history_state_unchanged _ _ _ _ _ _ _ _ _ _ _ _ _
      rfl rfl rfl (by omega)⟩

/-- Claim C3 as amended: a failure of the accuracy metrics call is swallowed in
Predictor.predict, whose outcome does not depend on the metrics function at all, but in
Geo_model.ensemble the metrics call at line 257 is not guarded by any try, so once the
dispatch step has produced a prediction a metrics failure propagates to the caller and
the ensemble unit is never registered. -/
theorem predict_metrics_swallowed_ensemble_metrics_fatal :
    (∀ (provider : Provider) (invFn : List Val → List Val) (m1 m2 : MetricsFn)
       (iv : Option (List String)) (mth : String) (h : Nat) (tl : Option Nat)
       (ins : Bool) (u : Predictor) (s : Store),
       predict provider invFn m1 iv mth h tl ins u s
         = predict provider invFn m2 iv mth h tl ins u s) ∧
    (∀ (D : DispatchFn) (e : PyErr) (mth lbl : String) (inds : List String)
       (h tl : Nat) (ins : Bool) (g : GeoModel) (first : UnitRec)
       (rest : List UnitRec) (cols : List (List Val)) (M : Mat) (raw : List Val),
       g.model_list.filter (fun m => decide (m.label ∈ inds)) = first :: rest →
       compatPreds (first :: rest) h = .ok cols →
       hstackCols cols = .ok M →
       D mth M first.target h tl ins = .ok raw →
       ensembleBody D (fun _ _ => .error e) mth lbl inds h tl ins g = .error (e, g)) := by
  constructor
  · intro provider invFn m1 m2 iv mth h tl ins u s
    rfl
  · intro D e mth lbl inds h tl ins g first rest cols M raw hsel hcp hstk hdisp
    simp [ensembleBody, hsel, hcp, hstk, hdisp]

theorem predict_metrics_swallowed_ensemble_metrics_fatal_witness :
    ([⟨"A", [Val.num 1, Val.num 2], some [Val.num 1, Val.num 2], [0, 1]⟩]
        : List UnitRec).filter (fun m => decide (m.label ∈ ["A"]))
      = [⟨"A", [Val.num 1, Val.num 2], some [Val.num 1, Val.num 2], [0, 1]⟩] ∧
    ensembleBody (fun _ _ _ _ _ _ => .ok [Val.num 1]) (fun _ _ => .error .domainError)
      "median" "E" ["A"] 0 1 false
      ⟨0, [⟨"A", [Val.num 1, Val.num 2], some [Val.num 1, Val.num 2], [0, 1]⟩]⟩
      = .error (.domainError,
          ⟨0, [⟨"A", [Val.num 1, Val.num 2], some [Val.num 1, Val.num 2], [0, 1]⟩]⟩) :=
  ⟨rfl,
    predict_metrics_swallowed_ensemble_metrics_fatal.2
      (fun _ _ _ _ _ _ => .ok [Val.num 1]) .domainError "median" "E" ["A"] 0 1 false
      ⟨0, [⟨"A", [Val.num 1, Val.num 2], some [Val.num 1, Val.num 2], [0, 1]⟩]⟩
      ⟨"A", [Val.num 1, Val.num 2], some [Val.num 1, Val.num 2], [0, 1]⟩ [] _ _ _
      rfl rfl rfl rfl⟩

/- Counterexample to claim C3 as frozen: with a dispatch that succeeds, a failing
metrics call makes the whole ensemble call fail, so the failure does propagate to the
caller and the call does not complete. -/
theorem ensemble_metrics_failure_propagates_cex :
    ensembleBody (fun _ _ _ _ _ _ => .ok [Val.num 1]) (fun _ _ => .error .valueError)
      "median" "E" ["A"] 0 1 false
      ⟨0, [⟨"A", [Val.num 1, Val.num 2], some [Val.num 1, Val.num 2], [0, 1]⟩]⟩
      = .error (.valueError,
          ⟨0, [⟨"A", [Val.num 1, Val.num 2], some [Val.num 1, Val.num 2], [0, 1]⟩]⟩) := by
  rfl

/-- Claim C9 as amended: every call to Geo_model.ensemble fails before producing or
registering any ensemble unit, and the reported orchestrator state is unchanged; when
the member selection is nonempty, every member has a prediction array and the stacking
succeeds, the failure is specifically the NameError from the unresolved argo_functions
module, while other inputs fail even earlier with a different exception. -/
theorem ensemble_always_fails_before_register :
    (∀ (mth lbl : String) (inds : List String) (h tl : Nat) (ins : Bool) (g : GeoModel),
       ∃ e, ensemble mth lbl inds h tl ins g = .error (e, g)) ∧
    (∀ (mth lbl : String) (inds : List String) (h tl : Nat) (ins : Bool) (g : GeoModel)
       (first : UnitRec) (rest : List UnitRec) (cols : List (List Val)) (M : Mat),
       g.model_list.filter (fun m => decide (m.label ∈ inds)) = first :: rest →
       compatPreds (first :: rest) h = .ok cols →
       hstackCols cols = .ok M →
       ensemble mth lbl inds h tl ins g = .error (.nameError, g)) := by
  constructor
  · intro mth lbl inds h tl ins g
    cases hcp : compatPreds (g.model_list.filter (fun m => decide (m.label ∈ inds))) h with
    | error e => exact ⟨e, by simp [ensemble, ensembleBody, hcp]⟩
    | ok cols =>
      cases hstk : hstackCols cols with
      | error e => exact ⟨e, by simp [ensemble, ensembleBody, hcp, hstk]⟩
      | ok M =>
        cases hsel : g.model_list.filter (fun m => decide (m.label ∈ inds)) with
        | nil => exact ⟨.indexError, by simp [ensemble, ensembleBody, hsel ▸ hcp, hstk, hsel]⟩
        | cons first rest =>
          exact ⟨.nameError, by simp [ensemble, ensembleBody, hsel ▸ hcp, hstk, hsel]⟩
  · intro mth lbl inds h tl ins g first rest cols M hsel hcp hstk
    simp [ensemble, ensembleBody, hsel, hcp, hstk]

theorem ensemble_always_fails_before_register_witness :
    ([⟨"A", [Val.num 1, Val.num 2], some [Val.num 1, Val.num 2], [0, 1]⟩]
        : List UnitRec).filter (fun m => decide (m.label ∈ ["A"]))
      = [⟨"A", [Val.num 1, Val.num 2], some [Val.num 1, Val.num 2], [0, 1]⟩] ∧
    ensemble "median" "E" ["A"] 0 104 false
      ⟨0, [⟨"A", [Val.num 1, Val.num 2], some [Val.num 1, Val.num 2], [0, 1]⟩]⟩
      = .error (.nameError,
          ⟨0, [⟨"A", [Val.num 1, Val.num 2], some [Val.num 1, Val.num 2], [0, 1]⟩]⟩) :=
  ⟨rfl,
    ensemble_always_fails_before_register.2 "median" "E" ["A"] 0 104 false
      ⟨0, [⟨"A", [Val.num 1, Val.num 2], some [Val.num 1, Val.num 2], [0, 1]⟩]⟩
      ⟨"A", [Val.num 1, Val.num 2], some [Val.num 1, Val.num 2], [0, 1]⟩ [] _ _
      rfl rfl rfl⟩

/- Counterexample to claim C9 as frozen: a call that selects no member units fails with
ValueError at the stacking step, not with the unresolved name error, so not every
failing call reports a NameError. -/
theorem ensemble_empty_selection_not_nameerror_cex :
    ensemble "median" "E" [] 0 104 false ⟨0, []⟩ = .error (.valueError, ⟨0, []⟩) ∧
    PyErr.valueError ≠ PyErr.nameError :=
  ⟨rfl, by decide⟩

/-- Claim C4 as amended: in save_predictions the fallback to all units happens exactly
when evaluating the label membership test itself raises (a non iterable selector): that
run equals the run with the selector all, with the fallback notice logged in front.  A
request naming only labels that are absent from the unit list does not fall back: the
selection is empty and the call fails with IndexError at line 298, leaving the
orchestrator unchanged; the ensemble path has no fallback at all and also fails, as
shown for claim C9. -/
theorem save_predictions_fallback_semantics :
    (∀ (g : GeoModel) (es : Bool),
       savePredictions g .nonIterable es =
         match savePredictions g .all es with
         | .ok (g2, t, log) => .ok (g2, t, Notice.labelFallback :: log)
         | .error r => .error r) ∧
    (∀ (g : GeoModel) (ls : List String) (es : Bool),
       (∀ m ∈ g.model_list, m.label ∉ ls) →
       savePredictions g (.labels ls) es = .error (.indexError, g)) := by
  constructor
  · intro g es
    cases hE : exportLoop g.pred_start_date g.model_list with
    | error r =>
      obtain ⟨e, part⟩ := r
      simp [savePredictions, selectModels, writeBack, hE]
    | ok pr =>
      obtain ⟨upd, cols⟩ := pr
      cases upd with
      | nil => simp [savePredictions, selectModels, writeBack, hE]
      | cons f rest => simp [savePredictions, selectModels, writeBack, hE]
  · intro g ls es hno
    have hfilt : g.model_list.filter (fun m => decide (m.label ∈ ls)) = [] := by
      rw [List.filter_eq_nil_iff]
      intro m hm
      simpa using hno m hm
    simp [savePredictions, selectModels, hfilt, writeBack, exportLoop, mergeUpdated_nil]

theorem save_predictions_fallback_semantics_witness :
    (∀ m ∈ ([⟨"A", [Val.num 1], some [Val.num 1], [0]⟩] : List UnitRec),
       m.label ∉ ["B"]) ∧
    savePredictions ⟨0, [⟨"A", [Val.num 1], some [Val.num 1], [0]⟩]⟩ (.labels ["B"]) true
      = .error (.indexError, ⟨0, [⟨"A", [Val.num 1], some [Val.num 1], [0]⟩]⟩) :=
  ⟨by decide,
    save_predictions_fallback_semantics.2
      ⟨0, [⟨"A", [Val.num 1], some [Val.num 1], [0]⟩]⟩ ["B"] true (by decide)⟩

/- Counterexample to claim C4 as frozen: an export request naming a label that is not in
the unit list does not fall back to all units and does not complete; it fails with
IndexError. -/
theorem save_predictions_absent_label_fails_cex :
    savePredictions ⟨0, [⟨"A", [Val.num 1], some [Val.num 1], [0]⟩]⟩ (.labels ["B"]) true
      = .error (.indexError, ⟨0, [⟨"A", [Val.num 1], some [Val.num 1], [0]⟩]⟩) := by
  rfl

theorem dpTargetStep_X (L : List Val → Except PyErr (List Val)) (tt : Bool)
    (u : Predictor) : (dpTargetStep L tt u).1.X = u.X := by
  cases tt with
  | false => rfl
  | true => cases hl : L u.target <;> simp [dpTargetStep, hl]

theorem dpAthStep_frame (M : Mat → Except PyErr Mat) (ta : Bool) (u : Predictor)
    (s : Store) (r : Nat) (hr : r ≠ u.X) :
    dictAt (dpAthStep M ta u s).1 r = dictAt s r := by
  simp only [dpAthStep]
  split
  · split
    · split
      · exact dictAt_storeSet_ne s u.X r _ hr
      · rfl
    · rfl
  · rfl

theorem dpGtStep_frame (G : Mat → Except PyErr Mat) (tg : Bool) (u : Predictor)
    (s : Store) (r : Nat) (hr : r ≠ u.X) :
    dictAt (dpGtStep G tg u s).1 r = dictAt s r := by
  simp only [dpGtStep]
  split
  · split
    · split
      · exact dictAt_storeSet_ne s u.X r _ hr
      · rfl
    · rfl
  · rfl

theorem dpArFinish_store (u : Predictor) (s : Store) (log : List Notice)
    (disc : SliceVal) : storeOf (dpArFinish u s log disc) = s := by
  unfold dpArFinish
  split
  · rfl
  · split
    · rfl
    · rfl

theorem dpArStep_frame (A : List Val → ARTerms → Except PyErr Mat) (ar : ARTerms)
    (u : Predictor) (s : Store) (r : Nat) (hr : r ≠ u.X) :
    dictAt (storeOf (dpArStep A ar u s)) r = dictAt s r := by
  have hs2 : ∀ d2 : Dict,
      dictAt (if (dictAt s u.X).isEmpty then s else storeSet s u.X d2) r = dictAt s r := by
    intro d2
    split
    · rfl
    · exact dictAt_storeSet_ne s u.X r d2 hr
  simp only [dpArStep]
  split
  · split
    · rfl
    · split
      · rfl
      · split
        · exact hs2 _
        · split
          · rw [dpArFinish_store]
            exact hs2 _
          · split
            · split
              · rw [dpArFinish_store]
                rw [dictAt_storeSet_ne _ _ _ _ hr]
                exact hs2 _
              · show dictAt (storeSet _ _ _) r = dictAt s r
                rw [dictAt_storeSet_ne _ _ _ _ hr]
                exact hs2 _
            · rw [dpArFinish_store]
              rw [dictAt_storeSet_ne _ _ _ _ hr]
              exact hs2 _
  · rfl

theorem dataProcess_frame (L : List Val → Except PyErr (List Val))
    (M G2 : Mat → Except PyErr Mat) (A : List Val → ARTerms → Except PyErr Mat)
    (tt ta tg : Bool) (ar : ARTerms) (u : Predictor) (s : Store) (r : Nat)
    (hr : r ≠ u.X) :
    dictAt (storeOf (dataProcess L M G2 A tt ta tg ar u s)) r = dictAt s r := by
  have hX : (dpTargetStep L tt u).1.X = u.X := dpTargetStep_X L tt u
  have hr1 : r ≠ (dpTargetStep L tt u).1.X := by rw [hX]; exact hr
  have h2 : dictAt (dpAthStep M ta (dpTargetStep L tt u).1 s).1 r = dictAt s r :=
    dpAthStep_frame M ta _ s r hr1
  have h3 := dpGtStep_frame G2 tg (dpTargetStep L tt u).1
    (dpAthStep M ta (dpTargetStep L tt u).1 s).1 r hr1
  have h4 := dpArStep_frame A ar (dpTargetStep L tt u).1
    (dpGtStep G2 tg (dpTargetStep L tt u).1 (dpAthStep M ta (dpTargetStep L tt u).1 s).1).1
    r hr1
  have hcomm : storeOf (dataProcess L M G2 A tt ta tg ar u s)
      = storeOf (dpArStep A ar (dpTargetStep L tt u).1
          (dpGtStep G2 tg (dpTargetStep L tt u).1
            (dpAthStep M ta (dpTargetStep L tt u).1 s).1).1) := by
    simp only [dataProcess]
    split
    · next heq => rw [heq]
    · next heq => rw [heq]; rfl
  rw [hcomm]
  rw [h4, h3, h2]

theorem predict_ok_store (provider : Provider) (invFn : List Val → List Val)
    (metricsFn : MetricsFn) (iv : Option (List String)) (mth : String) (h : Nat)
    (tl : Option Nat) (ins : Bool) (u : Predictor) (s : Store) (u2 : Predictor)
    (s2 : Store)
    (hok : predict provider invFn metricsFn iv mth h tl ins u s = .ok (u2, s2)) :
    s2 = s := by
  unfold predict at hok
  cases hst : stackInputs (dictAt s u.X) iv with
  | error e => rw [hst] at hok; simp at hok
  | ok M =>
    rw [hst] at hok
    cases hidx : listIndex u.datelist u.start_date with
    | error e => rw [hidx] at hok; simp at hok
    | ok shift =>
      rw [hidx] at hok
      dsimp only at hok
      cases htl : resolveTL tl u.resolution with
      | none => rw [htl] at hok; simp at hok
      | some tlv =>
        rw [htl] at hok
        dsimp only at hok
        by_cases hlt : ((shift : Int) - (tlv : Int)) < 0
        · rw [if_pos hlt] at hok
          simp at hok
        · rw [if_neg hlt] at hok
          cases hp : provider (pyDropFrom ((shift : Int) - (tlv : Int)) M)
              (pyDropFrom ((shift : Int) - (tlv : Int)) u.target) u.transform_target
              mth h tlv ins with
          | error e => rw [hp] at hok; simp at hok
          | ok raw =>
            rw [hp] at hok
            simp only [Except.ok.injEq, Prod.mk.injEq] at hok
            exact hok.2.symm

/-- Claim C7: two sibling units created by init_predictor from the same Geo_model own
independent deep copies of the shared inputs, target and calendar: their dict cells are
fresh, mutually distinct and distinct from the orchestrator cell while starting with
equal contents, any data_process run of one unit leaves the dict cell of the other unit
and of the orchestrator unchanged, and predict never writes the store at all, so no
mutation performed by one unit is observable from its sibling or from the Geo_model. -/
theorem init_predictor_deep_copy_isolation (g : GeoState) (s : Store) (l1 l2 : String)
    (hg : g.inputs < s.length) : IsolatedPair g s l1 l2 := by
  refine ⟨?_, ?_, ?_, ?_, ?_, ?_, ?_, ?_, ?_⟩
  · simp [initPredictor]
  · simp [initPredictor]
    omega
  · simp [initPredictor]
    omega
  · show dictAt ((s ++ [dictAt s g.inputs]) ++ [dictAt (s ++ [dictAt s g.inputs]) g.inputs])
        s.length = dictAt s g.inputs
    unfold dictAt
    rw [getD_append_lt _ _ _ (by simp)]
    exact getD_append_self s _
  · show dictAt ((s ++ [dictAt s g.inputs]) ++ [dictAt (s ++ [dictAt s g.inputs]) g.inputs])
        (s ++ [dictAt s g.inputs]).length = dictAt s g.inputs
    unfold dictAt
    rw [getD_append_self]
    exact getD_append_lt _ _ _ hg
  · intro L M G2 A tt ta tg ar r hrne
    exact dataProcess_frame L M G2 A tt ta tg ar _ _ r hrne
  · intro L M G2 A tt ta tg ar r hrne
    exact dataProcess_frame L M G2 A tt ta tg ar _ _ r hrne
  · intro provider invFn metricsFn iv mth h tl ins u2 s2 hok
    exact predict_ok_store provider invFn metricsFn iv mth h tl ins _ _ u2 s2 hok
  · intro provider invFn metricsFn iv mth h tl ins u2 s2 hok
    exact predict_ok_store provider invFn metricsFn iv mth h tl ins _ _ u2 s2 hok

theorem init_predictor_deep_copy_isolation_witness :
    (0 : Nat) < ([[("gt", [[Val.num 1]])]] : Store).length ∧
    IsolatedPair ⟨0, [Val.num 1], [0], 0, "week"⟩ [[("gt", [[Val.num 1]])]] "A" "B" :=
  ⟨by decide,
    init_predictor_deep_copy_isolation ⟨0, [Val.num 1], [0], 0, "week"⟩
      [[("gt", [[Val.num 1]])]] "A" "B" (by decide)⟩

theorem pyDropFrom_coe {α : Type} (a : Nat) (l : List α) :
    pyDropFrom (a : Int) l = l.drop a := by
  unfold pyDropFrom
  rw [if_pos (by omega)]
  congr 1

theorem take_replicate_append (n : Nat) (a : Val) (l : List Val) :
    (List.replicate n a ++ l).take n = List.replicate n a := by
  rw [List.take_append_eq_append_take]
  simp

/- Behaviour of predict once the pre-prediction steps have succeeded and the training
   window fits: all arrays handed to the provider start at shift - tl, the retained
   calendar starts at shift - tl in sample and at shift out of sample, the target is
   inverted when the transform flag is set and loses its first tl entries out of
   sample, and the predictions are the front padded provider output. -/
theorem predict_unfold_success
    (provider : Provider) (invFn : List Val → List Val) (metricsFn : MetricsFn)
    (iv : Option (List String)) (mth : String) (h : Nat) (train_len : Option Nat)
    (ins : Bool) (u : Predictor) (s : Store) (M : Mat) (shift tl : Nat)
    (hstack : stackInputs (dictAt s u.X) iv = .ok M)
    (hidx : listIndex u.datelist u.start_date = .ok shift)
    (htl : resolveTL train_len u.resolution = some tl)
    (hge : tl ≤ shift) :
    predict provider invFn metricsFn iv mth h train_len ins u s =
      match provider (M.drop (shift - tl)) (u.target.drop (shift - tl))
          u.transform_target mth h tl ins with
      | .error e => .error (e,
          { u with target := u.target.drop (shift - tl),
                   target_reserve := u.target_reserve.drop (shift - tl),
                   datelist := u.datelist.drop (if ins then shift - tl else shift) }, s)
      | .ok raw => .ok (
          { u with
            target :=
              if ins then
                (if u.transform_target then invFn (u.target.drop (shift - tl))
                 else u.target.drop (shift - tl))
              else
                (if u.transform_target then invFn (u.target.drop (shift - tl))
                 else u.target.drop (shift - tl)).drop tl,
            target_reserve := u.target_reserve.drop (shift - tl),
            datelist := u.datelist.drop (if ins then shift - tl else shift),
            predictions := some (List.replicate (h * 2) Val.nan ++
              (if u.transform_target then invFn raw else raw)) }, s) := by
  have hsv : pyDropFrom ((shift : Int) - (tl : Int)) (α := Val) =
      fun l => l.drop (shift - tl) := by
    funext l
    exact pyDropFrom_coe_sub shift tl hge l
  have hsvM : pyDropFrom ((shift : Int) - (tl : Int)) (α := List Val) =
      fun l => l.drop (shift - tl) := by
    funext l
    exact pyDropFrom_coe_sub shift tl hge l
  have hdl : pyDropFrom ((shift : Int) - (tl : Int) * boolToInt ins) u.datelist
      = u.datelist.drop (if ins then shift - tl else shift) := by
    cases ins with
    | true =>
      rw [show ((shift : Int) - (tl : Int) * boolToInt true) = ((shift : Int) - (tl : Int))
        by simp [boolToInt]]
      rw [pyDropFrom_coe_sub shift tl hge]
      rfl
    | false =>
      rw [show ((shift : Int) - (tl : Int) * boolToInt false) = ((shift : Int))
        by simp [boolToInt]]
      rw [pyDropFrom_coe]
      rfl
  unfold predict
  simp only [hstack, hidx, htl]
  rw [if_neg (by omega : ¬((shift : Int) - (tl : Int) < 0))]
  simp only [hsv, hsvM, hdl]
  cases hP : provider (M.drop (shift - tl)) (u.target.drop (shift - tl))
      u.transform_target mth h tl ins with
  | error e => simp
  | ok raw =>
    by_cases hf : u.transform_target
    · cases ins <;> simp [hf]
    · cases ins <;> simp [hf]

/-- Claim C6: in predict the retained calendar starts at predict_index minus train_len
when in_sample is true and at predict_index when in_sample is false, the design matrix
and target handed to the provider always start at predict_index minus train_len, and
after prediction, when in_sample is false, exactly the first train_len entries of the
possibly inverted target are dropped. -/
theorem predict_offsets_and_target_drop
    (provider : Provider) (invFn : List Val → List Val) (metricsFn : MetricsFn)
    (iv : Option (List String)) (mth : String) (h : Nat) (train_len : Option Nat)
    (ins : Bool) (u : Predictor) (s : Store) (M : Mat) (shift tl : Nat)
    (u2 : Predictor) (s2 : Store)
    (hstack : stackInputs (dictAt s u.X) iv = .ok M)
    (hidx : listIndex u.datelist u.start_date = .ok shift)
    (htl : resolveTL train_len u.resolution = some tl)
    (hok : predict provider invFn metricsFn iv mth h train_len ins u s = .ok (u2, s2)) :
    tl ≤ shift ∧
    u2.datelist = u.datelist.drop (if ins then shift - tl else shift) ∧
    (∃ raw, provider (M.drop (shift - tl)) (u.target.drop (shift - tl))
        u.transform_target mth h tl ins = .ok raw) ∧
    (ins = false → u2.target =
      (if u.transform_target then invFn (u.target.drop (shift - tl))
       else u.target.drop (shift - tl)).drop tl) := by
  by_cases hge : tl ≤ shift
  · rw [predict_unfold_success provider invFn metricsFn iv mth h train_len ins u s M
      shift tl hstack hidx htl hge] at hok
    cases hP : provider (M.drop (shift - tl)) (u.target.drop (shift - tl))
        u.transform_target mth h tl ins with
    | error e => rw [hP] at hok; simp at hok
    | ok raw =>
      rw [hP] at hok
      simp only [Except.ok.injEq, Prod.mk.injEq] at hok
      obtain ⟨hu2, _⟩ := hok
      subst hu2
      refine ⟨hge, by simp, ⟨raw, rfl⟩, ?_⟩
      intro hins
      subst hins
      simp
  · exfalso
    have hc : (shift : Int) - (tl : Int) < 0 := by omega
    have hfail : predict provider invFn metricsFn iv mth h train_len ins u s
        = .error (.assertionError, u, s) := by
      simp [predict, hstack, hidx, htl, hc]
    rw [hfail] at hok
    exact absurd hok (by simp)

theorem predict_offsets_and_target_drop_witness :
    predict (fun _ _ _ _ _ _ _ => .ok [Val.num 7]) id (fun _ _ => .ok ())
        (some ["gt"]) "ARGO" 0 (some 1) false
        { X := 0, target := [Val.num 1, Val.num 2, Val.num 3],
          target_reserve := [Val.num 1, Val.num 2, Val.num 3], label := "A",
          start_date := 1, datelist := [0, 1, 2], resolution := "week",
          transform_target := false, predictions := none }
        [[("gt", [[Val.num 1], [Val.num 2], [Val.num 3]])]]
      = .ok ({ X := 0, target := [Val.num 2, Val.num 3],
               target_reserve := [Val.num 1, Val.num 2, Val.num 3], label := "A",
               start_date := 1, datelist := [1, 2], resolution := "week",
               transform_target := false, predictions := some [Val.num 7] },
             [[("gt", [[Val.num 1], [Val.num 2], [Val.num 3]])]]) ∧
    (1 ≤ 1 ∧
     ({ X := 0, target := [Val.num 2, Val.num 3],
        target_reserve := [Val.num 1, Val.num 2, Val.num 3], label := "A",
        start_date := 1, datelist := [1, 2], resolution := "week",
        transform_target := false, predictions := some [Val.num 7] }
          : Predictor).datelist
        = List.drop (if false then 1 - 1 else 1) [0, 1, 2] ∧
     (∃ raw, (fun (_ : Mat) (_ : List Val) (_ : Bool) (_ : String) (_ : Nat) (_ : Nat)
          (_ : Bool) => (Except.ok [Val.num 7] : Except PyErr (List Val)))
            (List.drop (1 - 1) [[Val.num 1], [Val.num 2], [Val.num 3]])
            (List.drop (1 - 1) [Val.num 1, Val.num 2, Val.num 3]) false "ARGO" 0 1 false
          = .ok raw) ∧
     (false = false →
       ({ X := 0, target := [Val.num 2, Val.num 3],
          target_reserve := [Val.num 1, Val.num 2, Val.num 3], label := "A",
          start_date := 1, datelist := [1, 2], resolution := "week",
          transform_target := false, predictions := some [Val.num 7] }
            : Predictor).target
         = (if false then id (List.drop (1 - 1) [Val.num 1, Val.num 2, Val.num 3])
            else List.drop (1 - 1) [Val.num 1, Val.num 2, Val.num 3]).drop 1)) :=
  ⟨rfl,
    predict_offsets_and_target_drop (fun _ _ _ _ _ _ _ => .ok [Val.num 7]) id
      (fun _ _ => .ok ()) (some ["gt"]) "ARGO" 0 (some 1) false
      { X := 0, target := [Val.num 1, Val.num 2, Val.num 3],
        target_reserve := [Val.num 1, Val.num 2, Val.num 3], label := "A",
        start_date := 1, datelist := [0, 1, 2], resolution := "week",
        transform_target := false, predictions := none }
      [[("gt", [[Val.num 1], [Val.num 2], [Val.num 3]])]]
      [[Val.num 1], [Val.num 2], [Val.num 3]] 1 1 _ _ rfl rfl rfl rfl⟩

/-- Claim C1: an out of sample predict call that completes stores a prediction array
whose first 2 times horizon entries are missing value markers, and, given the provider
length contract of the spec (one prediction per eligible step: raw length plus train
window plus 2 times horizon equals the windowed target length), a length preserving
inverse transform and an aligned calendar, the padded prediction, the stored target and
the stored calendar slice all have the same length; the ensemble path front pads its
registered prediction array with the same 2 times horizon markers. -/
theorem predict_and_ensemble_front_padding :
    (∀ (provider : Provider) (invFn : List Val → List Val) (metricsFn : MetricsFn)
       (iv : Option (List String)) (mth : String) (h : Nat) (train_len : Option Nat)
       (u : Predictor) (s : Store) (u2 : Predictor) (s2 : Store),
       (∀ l, (invFn l).length = l.length) →
       (∀ X t flag mth2 h2 tl2 raw, provider X t flag mth2 h2 tl2 false = .ok raw →
          raw.length + tl2 + 2 * h2 = t.length) →
       u.datelist.length = u.target.length →
       predict provider invFn metricsFn iv mth h train_len false u s = .ok (u2, s2) →
       ∃ preds, u2.predictions = some preds ∧
         preds.take (2 * h) = List.replicate (2 * h) Val.nan ∧
         preds.length = u2.target.length ∧ u2.target.length = u2.datelist.length) ∧
    (∀ (D : DispatchFn) (Mt : MetricsFn) (mth lbl : String) (inds : List String)
       (h tl : Nat) (ins : Bool) (g g2 : GeoModel),
       ensembleBody D Mt mth lbl inds h tl ins g = .ok g2 →
       ∃ unit preds, g2.model_list = g.model_list ++ [unit] ∧
         unit.predictions = some preds ∧
         preds.take (2 * h) = List.replicate (2 * h) Val.nan) := by
  constructor
  · intro provider invFn metricsFn iv mth h train_len u s u2 s2 hinv hprov hlen hok
    cases hst : stackInputs (dictAt s u.X) iv with
    | error e =>
      unfold predict at hok
      rw [hst] at hok
      simp at hok
    | ok M =>
    cases hidx : listIndex u.datelist u.start_date with
    | error e =>
      unfold predict at hok
      rw [hst, hidx] at hok
      simp at hok
    | ok shift =>
    cases htl : resolveTL train_len u.resolution with
    | none =>
      unfold predict at hok
      rw [hst, hidx] at hok
      dsimp only at hok
      rw [htl] at hok
      simp at hok
    | some tl =>
    by_cases hge : tl ≤ shift
    · rw [predict_unfold_success provider invFn metricsFn iv mth h train_len false u s M
        shift tl hst hidx htl hge] at hok
      cases hP : provider (M.drop (shift - tl)) (u.target.drop (shift - tl))
          u.transform_target mth h tl false with
      | error e => rw [hP] at hok; simp at hok
      | ok raw =>
        rw [hP] at hok
        simp only [Except.ok.injEq, Prod.mk.injEq] at hok
        obtain ⟨hu2, _⟩ := hok
        subst hu2
        have hshift_lt := listIndex_ok_lt _ _ _ hidx
        have hraw := hprov _ _ _ _ _ _ _ hP
        rw [List.length_drop] at hraw
        have hprlen : (if u.transform_target then invFn raw else raw).length
            = raw.length := by
          by_cases hf : u.transform_target <;> simp [hf, hinv]
        have hTlen : (if u.transform_target then invFn (u.target.drop (shift - tl))
            else u.target.drop (shift - tl)).length
            = u.target.length - (shift - tl) := by
          by_cases hf : u.transform_target <;> simp [hf, hinv]
        refine ⟨List.replicate (h * 2) Val.nan ++
          (if u.transform_target then invFn raw else raw), by simp, ?_, ?_, ?_⟩
        · rw [Nat.mul_comm 2 h]
          exact take_replicate_append (h * 2) Val.nan _
        · simp only [List.length_append, List.length_replicate, hprlen,
            Bool.false_eq_true, if_false, List.length_drop, hTlen]
          omega
        · simp only [Bool.false_eq_true, if_false, List.length_drop, hTlen]
          omega
    · exfalso
      have hc : (shift : Int) - (tl : Int) < 0 := by omega
      have hfail : predict provider invFn metricsFn iv mth h train_len false u s
          = .error (.assertionError, u, s) := by
        simp [predict, hst, hidx, htl, hc]
      rw [hfail] at hok
      exact absurd hok (by simp)
  · intro D Mt mth lbl inds h tl ins g g2 hok
    unfold ensembleBody at hok
    dsimp only at hok
    cases hcp : compatPreds (g.model_list.filter (fun m => decide (m.label ∈ inds))) h with
    | error e => rw [hcp] at hok; simp at hok
    | ok cols =>
    rw [hcp] at hok
    dsimp only at hok
    cases hstk : hstackCols cols with
    | error e => rw [hstk] at hok; simp at hok
    | ok M =>
    rw [hstk] at hok
    dsimp only at hok
    cases hfl : g.model_list.filter (fun m => decide (m.label ∈ inds)) with
    | nil => rw [hfl] at hok; simp at hok
    | cons first rest =>
    rw [hfl] at hok
    dsimp only at hok
    cases hD : D mth M first.target h tl ins with
    | error e => rw [hD] at hok; simp at hok
    | ok raw =>
    rw [hD] at hok
    dsimp only at hok
    split at hok
    · simp at hok
    · simp only [Except.ok.injEq] at hok
      subst hok
      refine ⟨{ label := lbl,
                target := if ins = true then first.target else List.drop tl first.target,
                predictions := some (List.replicate (h * 2) Val.nan ++ raw),
                datelist := if ins = true then first.datelist
                  else List.drop tl first.datelist },
        List.replicate (h * 2) Val.nan ++ raw, by simp, rfl, ?_⟩
      rw [Nat.mul_comm 2 h]
      exact take_replicate_append (h * 2) Val.nan raw

theorem predict_and_ensemble_front_padding_witness :
    (let u2C : Predictor :=
      { X := 0, target := [Val.num 3, Val.num 4],
        target_reserve := [Val.num 2, Val.num 3, Val.num 4], label := "A",
        start_date := 2, datelist := [2, 3], resolution := "week",
        transform_target := false, predictions := some [Val.nan, Val.nan] }
     ∃ preds, u2C.predictions = some preds ∧
       preds.take (2 * 1) = List.replicate (2 * 1) Val.nan ∧
       preds.length = u2C.target.length ∧
       u2C.target.length = u2C.datelist.length) ∧
    (let uA : UnitRec :=
      ⟨"A", [Val.num 5, Val.num 6], some [Val.nan, Val.nan, Val.num 1, Val.num 2], [0, 1]⟩
     let uE : UnitRec := ⟨"E", [Val.num 6], some [Val.nan, Val.nan, Val.num 9], [1]⟩
     ∃ unit preds,
       ({ pred_start_date := 0, model_list := [uA, uE] } : GeoModel).model_list
         = [uA] ++ [unit] ∧
       unit.predictions = some preds ∧
       preds.take (2 * 1) = List.replicate (2 * 1) Val.nan) :=
  ⟨predict_and_ensemble_front_padding.1
      (fun _ t _ _ h2 tl2 ins =>
        if ins then Except.error PyErr.valueError
        else if tl2 + 2 * h2 ≤ t.length then
          Except.ok (List.replicate (t.length - (tl2 + 2 * h2)) (Val.num 0))
        else Except.error PyErr.valueError)
      id (fun _ _ => .ok ()) (some ["gt"]) "ARGO" 1 (some 1)
      { X := 0, target := [Val.num 1, Val.num 2, Val.num 3, Val.num 4],
        target_reserve := [Val.num 1, Val.num 2, Val.num 3, Val.num 4], label := "A",
        start_date := 2, datelist := [0, 1, 2, 3], resolution := "week",
        transform_target := false, predictions := none }
      [[("gt", [[Val.num 1], [Val.num 2], [Val.num 3], [Val.num 4]])]]
      _ _ (fun _ => rfl)
      (by
        intro X t flag mth2 h2 tl2 raw hp
        dsimp only at hp
        split at hp
        · exact absurd hp (by simp)
        · split at hp
          · injection hp with hraw
            subst hraw
            simp only [List.length_replicate]
            omega
          · exact absurd hp (by simp))
      rfl rfl,
    predict_and_ensemble_front_padding.2 (fun _ _ _ _ _ _ => .ok [Val.num 9])
      (fun _ _ => .ok ()) "median" "E" ["A"] 1 1 false
      ⟨0, [⟨"A", [Val.num 5, Val.num 6],
            some [Val.nan, Val.nan, Val.num 1, Val.num 2], [0, 1]⟩]⟩
      ⟨0, [⟨"A", [Val.num 5, Val.num 6],
            some [Val.nan, Val.nan, Val.num 1, Val.num 2], [0, 1]⟩,
          ⟨"E", [Val.num 6], some [Val.nan, Val.nan, Val.num 9], [1]⟩]⟩
      rfl⟩

/-- Claim C5: ensemble selects exactly the prior units whose label is in the member
list, preserving the registration order of model_list, strips the first 2 times horizon
entries of the prediction array of each and stacks them as the columns of the design
matrix handed to the dispatch, takes the first selected member as the reference target
and calendar, and, when in_sample is false, drops the first train_len entries of that
reference target and calendar in the unit it registers. -/
theorem ensemble_design_matrix_and_reference
    (D : DispatchFn) (Mt : MetricsFn) (hMt : ∀ a b, Mt a b = .ok ())
    (mth lbl : String) (inds : List String) (h tl : Nat) (ins : Bool) (g : GeoModel)
    (first : UnitRec) (rest : List UnitRec) (cols : List (List Val)) (M : Mat)
    (hsel : g.model_list.filter (fun m => decide (m.label ∈ inds)) = first :: rest)
    (hcp : compatPreds (first :: rest) h = .ok cols)
    (hstk : hstackCols cols = .ok M) :
    ensembleBody D Mt mth lbl inds h tl ins g =
      match D mth M first.target h tl ins with
      | .error e => .error (e, g)
      | .ok raw =>
        .ok { g with model_list := g.model_list ++
          [{ label := lbl,
             target := if ins then first.target else first.target.drop tl,
             predictions := some (List.replicate (h * 2) Val.nan ++ raw),
             datelist := if ins then first.datelist else first.datelist.drop tl }] } := by
  unfold ensembleBody
  dsimp only
  rw [hsel, hcp]
  dsimp only
  rw [hstk]
  dsimp only
  cases hD : D mth M first.target h tl ins with
  | error e => rfl
  | ok raw => simp [hMt]

theorem ensemble_design_matrix_and_reference_witness :
    ([⟨"A", [Val.num 5, Val.num 6, Val.num 7],
        some [Val.nan, Val.nan, Val.num 1, Val.num 2], [0, 1, 2]⟩,
      ⟨"B", [Val.num 5, Val.num 6, Val.num 7],
        some [Val.nan, Val.nan, Val.num 3, Val.num 4], [0, 1, 2]⟩]
        : List UnitRec).filter (fun m => decide (m.label ∈ ["A", "B"]))
      = [⟨"A", [Val.num 5, Val.num 6, Val.num 7],
          some [Val.nan, Val.nan, Val.num 1, Val.num 2], [0, 1, 2]⟩,
         ⟨"B", [Val.num 5, Val.num 6, Val.num 7],
          some [Val.nan, Val.nan, Val.num 3, Val.num 4], [0, 1, 2]⟩] ∧
    ensembleBody (fun _ _ _ _ _ _ => .ok [Val.num 9]) (fun _ _ => .ok ())
      "median" "E" ["A", "B"] 1 1 false
      ⟨0, [⟨"A", [Val.num 5, Val.num 6, Val.num 7],
            some [Val.nan, Val.nan, Val.num 1, Val.num 2], [0, 1, 2]⟩,
           ⟨"B", [Val.num 5, Val.num 6, Val.num 7],
            some [Val.nan, Val.nan, Val.num 3, Val.num 4], [0, 1, 2]⟩]⟩
      = .ok ⟨0, [⟨"A", [Val.num 5, Val.num 6, Val.num 7],
                  some [Val.nan, Val.nan, Val.num 1, Val.num 2], [0, 1, 2]⟩,
                 ⟨"B", [Val.num 5, Val.num 6, Val.num 7],
                  some [Val.nan, Val.nan, Val.num 3, Val.num 4], [0, 1, 2]⟩,
                 ⟨"E", [Val.num 6, Val.num 7],
                  some [Val.nan, Val.nan, Val.num 9], [1, 2]⟩]⟩ :=
  ⟨rfl,
    ensemble_design_matrix_and_reference (fun _ _ _ _ _ _ => .ok [Val.num 9])
      (fun _ _ => .ok ()) (fun _ _ => rfl) "median" "E" ["A", "B"] 1 1 false
      ⟨0, [⟨"A", [Val.num 5, Val.num 6, Val.num 7],
            some [Val.nan, Val.nan, Val.num 1, Val.num 2], [0, 1, 2]⟩,
           ⟨"B", [Val.num 5, Val.num 6, Val.num 7],
            some [Val.nan, Val.nan, Val.num 3, Val.num 4], [0, 1, 2]⟩]⟩
      ⟨"A", [Val.num 5, Val.num 6, Val.num 7],
        some [Val.nan, Val.nan, Val.num 1, Val.num 2], [0, 1, 2]⟩
      [⟨"B", [Val.num 5, Val.num 6, Val.num 7],
        some [Val.nan, Val.nan, Val.num 3, Val.num 4], [0, 1, 2]⟩]
      [[Val.num 1, Val.num 2], [Val.num 3, Val.num 4]]
      [[Val.num 1, Val.num 3], [Val.num 2, Val.num 4]]
      rfl rfl rfl⟩

/-- Claim C8: when the requested target transform fails (per the spec, the transform is
undefined on a series containing zero or missing values), data_process leaves the
target series unchanged, leaves the transform_target flag false, records the error
notice, and still runs the remaining steps of the same call exactly as a call that
never requested the target transform, completing normally. -/
theorem data_process_transform_failure_soft
    (L : List Val → Except PyErr (List Val)) (M G : Mat → Except PyErr Mat)
    (A : List Val → ARTerms → Except PyErr Mat) (ta tg : Bool) (u : Predictor)
    (s : Store) (e : PyErr)
    (hfail : L u.target = .error e) (hflag : u.transform_target = false) :
    ∃ u2 s2 log,
      dataProcess L M G A false ta tg .pynone u s = .ok (u2, s2, log) ∧
      dataProcess L M G A true ta tg .pynone u s
        = .ok (u2, s2, Notice.targetTransformError :: log) ∧
      u2.target = u.target ∧ u2.transform_target = false := by
  have hu : ({ u with transform_target := false } : Predictor) = u := by
    cases u
    simp_all
  have h1 : dpTargetStep L true u = (u, [Notice.targetTransformError]) := by
    simp [dpTargetStep, hfail, hu]
  have h0 : dpTargetStep L false u = (u, []) := by
    simp [dpTargetStep]
  refine ⟨u, (dpGtStep G tg u (dpAthStep M ta u s).1).1,
    (dpAthStep M ta u s).2 ++ (dpGtStep G tg u (dpAthStep M ta u s).1).2,
    ?_, ?_, rfl, hflag⟩
  · unfold dataProcess
    rw [h0]
    dsimp only
    simp [dpArStep, arTruthy]
  · unfold dataProcess
    rw [h1]
    dsimp only
    simp [dpArStep, arTruthy]

theorem data_process_transform_failure_soft_witness :
    (fun xs : List Val =>
        if xs.any (fun v => v == Val.nan || v == Val.num 0) then
          (Except.error PyErr.domainError : Except PyErr (List Val))
        else Except.ok xs) [Val.num 0] = .error .domainError ∧
    (∃ u2 s2 log,
      dataProcess
        (fun xs : List Val =>
          if xs.any (fun v => v == Val.nan || v == Val.num 0) then
            (Except.error PyErr.domainError : Except PyErr (List Val))
          else Except.ok xs)
        (fun m => .ok m) (fun m => .ok m) (fun _ _ => .ok []) false true false .pynone
        { X := 0, target := [Val.num 0], target_reserve := [Val.num 0], label := "A",
          start_date := 0, datelist := [0], resolution := "week",
          transform_target := false, predictions := none }
        [[("ath", [[Val.num 1]])]] = .ok (u2, s2, log) ∧
      dataProcess
        (fun xs : List Val =>
          if xs.any (fun v => v == Val.nan || v == Val.num 0) then
            (Except.error PyErr.domainError : Except PyErr (List Val))
          else Except.ok xs)
        (fun m => .ok m) (fun m => .ok m) (fun _ _ => .ok []) true true false .pynone
        { X := 0, target := [Val.num 0], target_reserve := [Val.num 0], label := "A",
          start_date := 0, datelist := [0], resolution := "week",
          transform_target := false, predictions := none }
        [[("ath", [[Val.num 1]])]] = .ok (u2, s2, Notice.targetTransformError :: log) ∧
      u2.target = [Val.num 0] ∧ u2.transform_target = false) :=
  ⟨rfl,
    data_process_transform_failure_soft
      (fun xs : List Val =>
        if xs.any (fun v => v == Val.nan || v == Val.num 0) then
          (Except.error PyErr.domainError : Except PyErr (List Val))
        else Except.ok xs)
      (fun m => .ok m) (fun m => .ok m) (fun _ _ => .ok []) true false
      { X := 0, target := [Val.num 0], target_reserve := [Val.num 0], label := "A",
        start_date := 0, datelist := [0], resolution := "week",
        transform_target := false, predictions := none }
      [[("ath", [[Val.num 1]])]] .domainError rfl rfl⟩
